import Mathlib

/-!
# Verification of the Peloton catalog / timestamp-checkpoint subsystem

Shallow embedding of the catalog DDL operations (`src/catalog/catalog.cpp`,
`src/catalog/constraint_catalog.cpp`) and the timestamp checkpoint manager
(`src/logging/timestamp_checkpoint_manager.cpp`), together with theorems
settling the specification claims about them.

Machine integers (`oid_t`, `txn_id_t`, `cid_t`, `eid_t`) are embedded as `Nat`;
the operations under study only compare them (no overflowing arithmetic), so
this is faithful.  Sentinel constants live in `common/internal_types.h`, which
is not part of the surveyed sources; they are modelled as distinguished values,
and no proof depends on anything but their distinctness.
-/

namespace Peloton

/-- Modelled from the spec: the "invalid" transaction-id sentinel
(`INVALID_TXN_ID` in `common/internal_types.h`, not under the surveyed
sources); a deleted/aborted slot.  Only its distinctness from
`INITIAL_TXN_ID` matters. -/
def INVALID_TXN_ID : Nat := 0

/-- Modelled from the spec: the reserved "bootstrap/initial" transaction-id
sentinel (`INITIAL_TXN_ID`), a version owned by no live transaction. -/
def INITIAL_TXN_ID : Nat := 1

/-- Modelled from the spec: the reserved "uncommitted" commit-id sentinel
(`MAX_CID = std::numeric_limits<cid_t>::max()`, `cid_t = uint64_t`). -/
def MAX_CID : Nat := 2 ^ 64 - 1

/-- Modelled from the spec: the invalid-epoch sentinel (`INVALID_EID`).
`GetRecoveryCheckpointEpoch` initialises its running maximum with it and
skips every directory name parsing to `0`, so it is the bottom element `0`. -/
def INVALID_EID : Nat := 0

/-- Modelled from the spec: the invalid object-id sentinel (`INVALID_OID`).
Only equality tests against it occur in the surveyed code. -/
def INVALID_OID : Nat := 0

/-! ## The checkpoint visibility predicate

`TimestampCheckpointManager::IsVisible`
(`src/logging/timestamp_checkpoint_manager.cpp:367-402`). The tile-group
header lookups are replaced by passing the tuple version's fields directly. -/

/-- `TimestampCheckpointManager::IsVisible`, embedded on one tuple version's
header fields `(tuple_txn_id, tuple_begin_cid, tuple_end_cid)` and the
snapshot read id `begin_cid`. -/
def IsVisible (tuple_txn_id tuple_begin_cid tuple_end_cid begin_cid : Nat) : Bool :=
  -- the tuple has already been committed
  let activated : Bool := decide (begin_cid ≥ tuple_begin_cid)
  -- the tuple is not visible
  let invalidated : Bool := decide (begin_cid ≥ tuple_end_cid)
  if tuple_txn_id = INVALID_TXN_ID then
    -- this tuple is not available.
    false
  else if tuple_txn_id = INITIAL_TXN_ID then
    -- this tuple is not owned by any other transaction.
    activated && !invalidated
  else
    -- this tuple is owned by other transactions.
    if tuple_begin_cid = MAX_CID then
      -- this tuple is an uncommitted version.
      false
    else
      activated && !invalidated

/-- The simplified visibility predicate of claim C9: the branch on the creator
transaction id (bootstrap/initial sentinel versus any other id) is dropped and
only the interval check remains after the invalid-sentinel test. -/
def IsVisibleSimple (tuple_txn_id tuple_begin_cid tuple_end_cid begin_cid : Nat) : Bool :=
  if tuple_txn_id = INVALID_TXN_ID then false
  else decide (begin_cid ≥ tuple_begin_cid) && decide (begin_cid < tuple_end_cid)

/-! ## Recovery epoch selection

`TimestampCheckpointManager::GetRecoveryCheckpointEpoch`
(`src/logging/timestamp_checkpoint_manager.cpp:96-124`). -/

/-- `unsigned long` maximum (`eid_t = uint64_t`). -/
def ULONG_MAX : Nat := 2 ^ 64 - 1

/-- The whitespace characters skipped by C `strtoul`. -/
def isSpaceChar (c : Char) : Bool :=
  c = ' ' || c = '\t' || c = '\n' || c = '\x0b' || c = '\x0c' || c = '\r'

/-- Value of a digit sequence in base 10. -/
def digitsVal (cs : List Char) : Nat :=
  cs.foldl (fun a c => a * 10 + (c.toNat - 48)) 0

/-- `std::strtoul(s, NULL, 10)`: skip leading whitespace, consume one optional
sign, read the maximal digit prefix.  No digits gives `0`; a magnitude above
`ULONG_MAX` is clamped to `ULONG_MAX`; a minus sign negates in `uint64`
arithmetic. -/
def strtoul10 (s : String) : Nat :=
  let cs := s.data.dropWhile isSpaceChar
  let signed : Bool × List Char :=
    match cs with
    | '-' :: rest => (true, rest)
    | '+' :: rest => (false, rest)
    | _ => (false, cs)
  let mag := digitsVal (signed.2.takeWhile Char.isDigit)
  if mag > ULONG_MAX then ULONG_MAX
  else if signed.1 then (2 ^ 64 - mag) % 2 ^ 64
  else mag

/-- Loop body of `GetRecoveryCheckpointEpoch`: skip the reserved working
directory name, skip names whose `strtoul` value is `0`, otherwise keep the
larger epoch. -/
def grceStep (workingName : String) (max_epoch : Nat) (dir_name : String) : Nat :=
  if dir_name = workingName then max_epoch
  else
    let epoch_id := strtoul10 dir_name
    if epoch_id = 0 then max_epoch
    else if epoch_id > max_epoch then epoch_id else max_epoch

/-- `TimestampCheckpointManager::GetRecoveryCheckpointEpoch`, over the
directory listing returned by `LoggingUtil::GetDirectoryList` (`none` models
its failure); `workingName` is `checkpoint_working_dir_name_`. -/
def GetRecoveryCheckpointEpoch (workingName : String) :
    Option (List String) → Nat
  | none => INVALID_EID
  | some dir_name_list => dir_name_list.foldl (grceStep workingName) INVALID_EID

/-! ## Checkpoint recovery

`TimestampCheckpointManager::DoCheckpointRecovery` and its callees
(`src/logging/timestamp_checkpoint_manager.cpp:56-94, 431-660`).  Collaborator
outcomes (file opens, reads, tuple insertions) are environment inputs; the
embedding records the control flow exactly as written. -/

/-- Outcomes for one tuple replayed by `RecoverTableData`: whether
`TileGroup::InsertTuple` yields a valid slot and whether
`DataTable::InsertTuple` succeeds. -/
structure TupleEnv where
  tileInsertOk : Bool
  tableInsertOk : Bool
  deriving DecidableEq, Repr

/-- One serialized tile group inside a table checkpoint file. -/
structure TileGroupEnv where
  tuples : List TupleEnv
  deriving DecidableEq, Repr

/-- Environment of one per-table checkpoint file during recovery. -/
structure TableFileEnv where
  /-- `LoggingUtil::OpenFile` outcome. -/
  openOk : Bool
  /-- `LoggingUtil::ReadNBytesFromFile` outcome. -/
  readOk : Bool
  tileGroups : List TileGroupEnv
  deriving DecidableEq, Repr

/-- Tuple loop of `RecoverTableData`: stops at the first failing tile-group or
table insertion (the code logs the error and returns).  Result: number of
tuples registered via `PerformInsert`, and whether the loop exited early. -/
def recoverTuples : List TupleEnv → Nat × Bool
  | [] => (0, false)
  | t :: ts =>
    if !t.tileInsertOk then (0, true)
    else if !t.tableInsertOk then (0, true)
    else
      let r := recoverTuples ts
      (r.1 + 1, r.2)

/-- Tile-group loop of `RecoverTableData`. -/
def recoverTileGroups : List TileGroupEnv → Nat × Bool
  | [] => (0, false)
  | g :: gs =>
    let r := recoverTuples g.tuples
    if r.2 then (r.1, true)
    else
      let s := recoverTileGroups gs
      (r.1 + s.1, s.2)

/-- `TimestampCheckpointManager::RecoverTableData`
(`src/logging/timestamp_checkpoint_manager.cpp:584-660`): a `void` function; a
failed read, tile-group insertion or table insertion is logged and the
function merely returns, leaving the tuples registered so far in place.
Result: number of tuples registered with `PerformInsert`. -/
def RecoverTableData (f : TableFileEnv) : Nat :=
  if !f.readOk then 0
  else (recoverTileGroups f.tileGroups).1

/-- `TimestampCheckpointManager::LoadTableCheckpointFile`
(`src/logging/timestamp_checkpoint_manager.cpp:564-582`): returns `false` only
when the per-table checkpoint file cannot be opened; every failure inside
`RecoverTableData` is invisible to it and it returns `true`. -/
def LoadTableCheckpointFile (f : TableFileEnv) : Bool × Nat :=
  if !f.openOk then (false, 0)
  else (true, RecoverTableData f)

/-- Per-table loop shared by `LoadUserTableCheckpoint` and
`LoadCatalogTableCheckpoint`: stops at the first file that fails to open,
keeping the tuples already registered. -/
def loadTableLoop : List TableFileEnv → Bool × Nat
  | [] => (true, 0)
  | f :: fs =>
    let r := LoadTableCheckpointFile f
    if !r.1 then (false, r.2)
    else
      let s := loadTableLoop fs
      (s.1, r.2 + s.2)

/-- Environment of one checkpoint recovery run. -/
structure RecoveryEnv where
  /-- Result of `GetRecoveryCheckpointEpoch`. -/
  epoch_id : Nat
  /-- `OpenFile` outcome on the generation's `catalog.bin`. -/
  catalogOpenOk : Bool
  /-- `ReadNBytesFromFile` outcome on `catalog.bin`. -/
  catalogReadOk : Bool
  /-- Per-database `DeserializeDatabaseFrom` outcomes. -/
  dbDeserOks : List Bool
  /-- Per-table files of the user databases. -/
  userTables : List TableFileEnv
  /-- Per-table files of the checkpointed catalog tables. -/
  catalogTables : List TableFileEnv
  deriving DecidableEq, Repr

/-- `TimestampCheckpointManager::RecoverCatalogObject`
(`src/logging/timestamp_checkpoint_manager.cpp:471-500`). -/
def RecoverCatalogObject (env : RecoveryEnv) : Bool :=
  if !env.catalogReadOk then false
  else env.dbDeserOks.all id

/-- `TimestampCheckpointManager::LoadUserTableCheckpoint`
(`src/logging/timestamp_checkpoint_manager.cpp:431-468`). -/
def LoadUserTableCheckpoint (env : RecoveryEnv) : Bool × Nat :=
  if !env.catalogOpenOk then (false, 0)
  else if !RecoverCatalogObject env then (false, 0)
  else loadTableLoop env.userTables

/-- `TimestampCheckpointManager::LoadCatalogTableCheckpoint`
(`src/logging/timestamp_checkpoint_manager.cpp:504-562`). -/
def LoadCatalogTableCheckpoint (env : RecoveryEnv) : Bool × Nat :=
  loadTableLoop env.catalogTables

/-- Fate of the recovery transaction. -/
inductive TxnOutcome
  | noTxn
  | aborted
  | committed
  deriving DecidableEq, Repr

/-- `TimestampCheckpointManager::DoCheckpointRecovery`
(`src/logging/timestamp_checkpoint_manager.cpp:56-94`): the reported result,
the fate of the recovery transaction, and the total number of tuples
registered during the run. -/
def DoCheckpointRecovery (env : RecoveryEnv) : Bool × TxnOutcome × Nat :=
  if env.epoch_id = INVALID_EID then (false, .noTxn, 0)
  else
    let u := LoadUserTableCheckpoint env
    if !u.1 then (false, .aborted, u.2)
    else
      let c := LoadCatalogTableCheckpoint env
      if !c.1 then (false, .aborted, u.2 + c.2)
      else (true, .committed, u.2 + c.2)

/-- Total number of tuples serialized in one table checkpoint file. -/
def tupleCountOfFile (f : TableFileEnv) : Nat :=
  (f.tileGroups.map (fun g => g.tuples.length)).sum

/-- Total number of tuples serialized in the recovery environment. -/
def tupleCount (env : RecoveryEnv) : Nat :=
  (env.userTables.map tupleCountOfFile).sum +
    (env.catalogTables.map tupleCountOfFile).sum

/-- Recovery environment exercising a failed table insertion: one user table
whose file holds two tuples, the second of which fails `DataTable::InsertTuple`;
every file open, read and catalog step succeeds. -/
def envC2 : RecoveryEnv :=
  { epoch_id := 5
    catalogOpenOk := true
    catalogReadOk := true
    dbDeserOks := [true]
    userTables := [{ openOk := true, readOk := true,
                     tileGroups := [{ tuples := [⟨true, true⟩, ⟨true, false⟩] }] }]
    catalogTables := [] }

/-- Recovery environment whose `catalog.bin` fails to open. -/
def envCatalogOpenFail : RecoveryEnv :=
  { epoch_id := 5
    catalogOpenOk := false
    catalogReadOk := true
    dbDeserOks := []
    userTables := []
    catalogTables := [] }

/-! ## Checkpoint cycle (writing side)

`TimestampCheckpointManager::PerformCheckpointing` and its callees
(`src/logging/timestamp_checkpoint_manager.cpp:126-365`). -/

/-- Write-side environment of one table checkpoint file. -/
structure TableWriteEnv where
  /-- `OpenFile` outcome in `CreateTableCheckpointFile`. -/
  openOk : Bool
  /-- Per-tile-group `fwrite` outcomes in `CheckpointingTableData`. -/
  writeOks : List Bool
  deriving DecidableEq, Repr

/-- Environment of one checkpoint cycle. -/
structure CkptCycleEnv where
  userTables : List TableWriteEnv
  /-- `OpenFile` outcome on the working `catalog.bin`. -/
  catalogOpenOk : Bool
  /-- `fwrite` outcome in `CheckpointingCatalogObject`. -/
  catalogWriteOk : Bool
  catalogTables : List TableWriteEnv
  deriving DecidableEq, Repr

/-- Observable steps of one checkpoint cycle. -/
inductive CkptEvent
  | createWorkingDir
  | openTableFileFailed
  | writeTableFile (complete : Bool)
  | openCatalogFileFailed
  | writeCatalogFile (complete : Bool)
  | endTxn
  | moveWorkingToEpochDir (epoch : Nat)
  | removeOldCheckpoints (epoch : Nat)
  deriving DecidableEq, Repr

/-- `CheckpointingTableData` stops at the first failed `fwrite`; the file is
complete iff every tile-group write succeeded. -/
def checkpointTableFileComplete (t : TableWriteEnv) : Bool := t.writeOks.all id

/-- `TimestampCheckpointManager::CreateTableCheckpointFile`
(`src/logging/timestamp_checkpoint_manager.cpp:276-292`): an open failure is
logged and the table silently skipped; otherwise the table data is written
(possibly partially). -/
def CreateTableCheckpointFile (t : TableWriteEnv) : List CkptEvent :=
  if !t.openOk then [.openTableFileFailed]
  else [.writeTableFile (checkpointTableFileComplete t)]

/-- `TimestampCheckpointManager::CreateUserTableCheckpoint`
(`src/logging/timestamp_checkpoint_manager.cpp:179-230`): per-table files,
then the working catalog file (an open failure only skips the catalog write). -/
def CreateUserTableCheckpoint (env : CkptCycleEnv) : List CkptEvent :=
  (env.userTables.map CreateTableCheckpointFile).flatten ++
    (if !env.catalogOpenOk then [.openCatalogFileFailed]
     else [.writeCatalogFile env.catalogWriteOk])

/-- `TimestampCheckpointManager::CreateCatalogTableCheckpoint`
(`src/logging/timestamp_checkpoint_manager.cpp:234-274`). -/
def CreateCatalogTableCheckpoint (env : CkptCycleEnv) : List CkptEvent :=
  (env.catalogTables.map CreateTableCheckpointFile).flatten

/-- One checkpoint cycle of `TimestampCheckpointManager::PerformCheckpointing`
(`src/logging/timestamp_checkpoint_manager.cpp:126-177`), as the sequence of
steps it performs.  `MoveWorkingToCheckpointDirectory` and
`RemoveOldCheckpoints` run unconditionally after the two checkpoint-creation
calls. -/
def performCheckpointCycle (begin_epoch_id : Nat) (env : CkptCycleEnv) :
    List CkptEvent :=
  [.createWorkingDir]
    ++ CreateUserTableCheckpoint env
    ++ CreateCatalogTableCheckpoint env
    ++ [.endTxn, .moveWorkingToEpochDir begin_epoch_id,
        .removeOldCheckpoints begin_epoch_id]

/-- The file-phase steps of a cycle (directory creation, file opens and
writes), as opposed to transaction end, promotion and pruning. -/
def CkptEvent.isFileStep : CkptEvent → Bool
  | .createWorkingDir => true
  | .openTableFileFailed => true
  | .writeTableFile _ => true
  | .openCatalogFileFailed => true
  | .writeCatalogFile _ => true
  | _ => false

/-- Whether some file open or file write step of the cycle failed. -/
def cycleHasFailure (env : CkptCycleEnv) : Bool :=
  env.userTables.any (fun t => !t.openOk || !t.writeOks.all id) ||
    !env.catalogOpenOk || !env.catalogWriteOk ||
    env.catalogTables.any (fun t => !t.openOk || !t.writeOks.all id)

/-- Cycle environment in which the only user table's single tile-group write
fails, leaving a partially written data file. -/
def envC3 : CkptCycleEnv :=
  { userTables := [{ openOk := true, writeOks := [false] }]
    catalogOpenOk := true
    catalogWriteOk := true
    catalogTables := [] }

/-! ## Catalog layer

`Catalog` DDL operations from `src/catalog/catalog.cpp` and
`ConstraintCatalog::InsertConstraint` from
`src/catalog/constraint_catalog.cpp`.  Catalog tables are embedded as lists
of rows; physical-storage collaborators appear as the fields they contribute. -/

/-- `peloton::ResultType`, restricted to the values the surveyed code uses. -/
inductive ResultType
  | SUCCESS
  | FAILURE
  deriving DecidableEq, Repr

/-- Modelled from the spec: the reserved row-store layout id (spec §3:
"layout id 0 is reserved for the row-store layout"). -/
def ROW_STORE_LAYOUT_OID : Nat := 0

/-- Layout state of one table: the storage table's current default layout
oid, its `pg_layout` rows (layout oids), and the `default_layout_oid` column
of its `pg_table` row. -/
structure TableLayoutState where
  defaultLayoutOid : Nat
  layoutRows : List Nat
  pgTableDefaultOid : Nat
  deriving DecidableEq, Repr

/-- Modelled from the spec: `DataTable::ResetDefaultLayout` (storage layer,
not under the surveyed sources) resets the table's default layout to the
reserved row-store layout (id 0); spec §4.1: "`DropLayout` additionally
resets the table to the row-store layout if the dropped layout was the
default". -/
def resetDefaultLayout (st : TableLayoutState) : TableLayoutState :=
  { st with defaultLayoutOid := ROW_STORE_LAYOUT_OID }

/-- `LayoutCatalog::DeleteLayout`: removes the table's `pg_layout` row with
the given oid, failing when no such row exists. -/
def deleteLayoutRow (st : TableLayoutState) (layout_oid : Nat) :
    Option TableLayoutState :=
  if layout_oid ∈ st.layoutRows then
    some { st with layoutRows := st.layoutRows.erase layout_oid }
  else none

/-- `Catalog::DropLayout` (`src/catalog/catalog.cpp:1027-1065`).  The table's
default layout is captured before the deletion; `insertOk` is the outcome of
`LayoutCatalog::InsertLayout` when it is reached. -/
def DropLayout (st : TableLayoutState) (layout_oid : Nat) (insertOk : Bool) :
    ResultType × TableLayoutState :=
  let default_layout := st.defaultLayoutOid
  match deleteLayoutRow st layout_oid with
  | none => (.FAILURE, st)
  | some st1 =>
    if default_layout = layout_oid then
      let st2 := resetDefaultLayout st1
      let new_default := st2.defaultLayoutOid
      if new_default ∉ st2.layoutRows ∧ insertOk = false then
        (.FAILURE, st2)
      else
        let st3 :=
          if new_default ∈ st2.layoutRows then st2
          else { st2 with layoutRows := new_default :: st2.layoutRows }
        (.SUCCESS, { st3 with pgTableDefaultOid := new_default })
    else (.SUCCESS, st1)

/-- Rows of the per-database catalog tables touched by `Catalog::DropTable`:
`pg_trigger` rows `(table_oid, trigger id)`, `pg_index` rows
`(index_oid, table_oid)`, `pg_attribute` rows `(table_oid, column_id)`,
`pg_layout` rows `(table_oid, layout_oid)`, and `pg_table` rows. -/
structure CatalogTablesState where
  triggerRows : List (Nat × Nat)
  indexRows : List (Nat × Nat)
  columnRows : List (Nat × Nat)
  layoutRows : List (Nat × Nat)
  tableRows : List Nat
  deriving DecidableEq, Repr

/-- The steps `Catalog::DropTable` performs, in program order. -/
inductive DropStep
  | dropTrigger (table_oid trigger : Nat)
  | dropIndex (index_oid : Nat)
  | deleteColumns (table_oid : Nat)
  | deleteLayouts (table_oid : Nat)
  | deleteTable (table_oid : Nat)
  | recordDropTable (table_oid : Nat)
  deriving DecidableEq, Repr

/-- `Catalog::DropIndex` (`src/catalog/catalog.cpp:996-1025`), restricted to
its effect on `pg_index`: `IndexCatalog::DeleteIndex` removes the record with
the given index oid. -/
def dropIndexRows (rows : List (Nat × Nat)) (index_oid : Nat) :
    List (Nat × Nat) :=
  rows.filter (fun r => r.1 != index_oid)

/-- `Catalog::DropTable` (`src/catalog/catalog.cpp:942-989`): the catalog
state afterwards and the ordered list of steps taken.
`TableCatalogEntry::GetIndexCatalogEntries` yields the table's `pg_index`
rows and `TriggerCatalog::GetTriggers` its `pg_trigger` rows. -/
def DropTable (st : CatalogTablesState) (table_oid : Nat) :
    CatalogTablesState × List DropStep :=
  let trigger_lists := st.triggerRows.filter (fun r => r.1 == table_oid)
  let index_objects := st.indexRows.filter (fun r => r.2 == table_oid)
  -- delete trigger and records in pg_trigger
  let st1 := { st with
    triggerRows := st.triggerRows.filter (fun r => r.1 != table_oid) }
  -- delete index and records pg_index
  let st2 := { st1 with
    indexRows := index_objects.foldl
      (fun rows (r : Nat × Nat) => dropIndexRows rows r.1) st1.indexRows }
  -- delete record in pg_attribute
  let st3 := { st2 with
    columnRows := st2.columnRows.filter (fun r => r.1 != table_oid) }
  -- delete record in pg_layout
  let st4 := { st3 with
    layoutRows := st3.layoutRows.filter (fun r => r.1 != table_oid) }
  -- delete record in pg_table
  let st5 := { st4 with tableRows := st4.tableRows.erase table_oid }
  (st5,
    trigger_lists.map (fun r => DropStep.dropTrigger table_oid r.2)
      ++ index_objects.map (fun r => DropStep.dropIndex r.1)
      ++ [DropStep.deleteColumns table_oid, DropStep.deleteLayouts table_oid,
          DropStep.deleteTable table_oid, DropStep.recordDropTable table_oid])

/-- A schema column as consumed by `Catalog::CreatePrimaryIndex`: name, type
tag, and the primary-key marker `Column::IsPrimary`. -/
structure SchemaColumn where
  colName : String
  colType : Nat
  isPrimary : Bool
  deriving DecidableEq, Repr

/-- `peloton::IndexConstraintType`, restricted to the values used here. -/
inductive IndexConstraintType
  | DEFAULT
  | UNIQUE
  | PRIMARY_KEY
  deriving DecidableEq, Repr

/-- One `pg_index` row as inserted by `IndexCatalog::InsertIndex`. -/
structure IndexRow where
  index_oid : Nat
  table_oid : Nat
  index_name : String
  index_constraint : IndexConstraintType
  unique_keys : Bool
  key_attrs : List Nat
  deriving DecidableEq, Repr

/-- The column scan of `Catalog::CreatePrimaryIndex`: walk the schema columns
with a running `column_idx`, collecting the ordinals of columns carrying the
primary marker. -/
def primaryKeyAttrsAux (column_idx : Nat) : List SchemaColumn → List Nat
  | [] => []
  | column :: rest =>
    if column.isPrimary then
      column_idx :: primaryKeyAttrsAux (column_idx + 1) rest
    else primaryKeyAttrsAux (column_idx + 1) rest

/-- The `key_attrs` computed by `Catalog::CreatePrimaryIndex`. -/
def primaryKeyAttrs (schema : List SchemaColumn) : List Nat :=
  primaryKeyAttrsAux 0 schema

/-- `catalog::Schema::CopySchema`, restricted to its use here: project the
owning table's schema onto the given column ordinals, in the given order. -/
def copySchema (schema : List SchemaColumn) (key_attrs : List Nat) :
    List SchemaColumn :=
  key_attrs.filterMap (fun i => schema.get? i)

/-- `Catalog::CreatePrimaryIndex` (`src/catalog/catalog.cpp:547-612`):
result, the `pg_index` rows after the call, and the key schema built for the
index when one is created; `index_oid` is `IndexCatalog::GetNextOid()`. -/
def CreatePrimaryIndex (table_name : String) (schema : List SchemaColumn)
    (table_oid index_oid : Nat) (pg_index : List IndexRow) :
    ResultType × List IndexRow × Option (List SchemaColumn) :=
  let key_attrs := primaryKeyAttrs schema
  if key_attrs.isEmpty then (.FAILURE, pg_index, none)
  else
    let key_schema := copySchema schema key_attrs
    let row : IndexRow :=
      { index_oid := index_oid
        table_oid := table_oid
        index_name := table_name ++ "_pkey"
        index_constraint := .PRIMARY_KEY
        unique_keys := true
        key_attrs := key_attrs }
    (.SUCCESS, pg_index ++ [row], some key_schema)

/-- `peloton::ConstraintType` (`common/internal_types.h`, not under the
surveyed sources); the members beyond the five the `InsertConstraint` switch
handles are modelled from the spec's constraint taxonomy and the
`ConstraintType::INVALID` default seen in `multi_constraint.h`. -/
inductive ConstraintType
  | INVALID
  | NOTNULL
  | DEFAULT
  | CHECK
  | PRIMARY
  | UNIQUE
  | FOREIGN
  | EXCLUSION
  deriving DecidableEq, Repr

/-- Modelled from the spec: `ConstraintTypeToString` (not under the surveyed
sources), an injective rendering of the constraint kind. -/
def ConstraintTypeToString : ConstraintType → String
  | .INVALID => "INVALID"
  | .NOTNULL => "NOTNULL"
  | .DEFAULT => "DEFAULT"
  | .CHECK => "CHECK"
  | .PRIMARY => "PRIMARY"
  | .UNIQUE => "UNIQUE"
  | .FOREIGN => "FOREIGN"
  | .EXCLUSION => "EXCLUSION"

/-- Modelled from the spec: `FKConstrActionTypeToString` (not under the
surveyed sources); the action enum is embedded as `Nat` and rendered
injectively. -/
def FKConstrActionTypeToString (a : Nat) : String := toString a

/-- `catalog::Constraint` as consumed by `InsertConstraint`; the check
expression is the `(ExpressionType, literal value)` pair, with the literal's
serialized form embedded as a byte list. -/
structure Constraint where
  constraint_oid : Nat
  cname : String
  ctype : ConstraintType
  table_oid : Nat
  column_ids : List Nat
  index_oid : Nat
  fk_sink_table_oid : Nat
  fk_sink_col_ids : List Nat
  fk_update_action : Nat
  fk_delete_action : Nat
  check_exp_type : Nat
  check_exp_value : List Nat
  deriving DecidableEq, Repr

/-- The space-separated rendering of column ordinals (the `std::stringstream`
loops of `InsertConstraint`). -/
def idsToString (ids : List Nat) : String :=
  ids.foldl (fun s i => s ++ toString i ++ " ") ""

/-- The self-describing binary encoding written for a check constraint:
`WriteInt` of the expression kind, `WriteInt` of the column's value type,
then the serialized literal. -/
def checkExpBinEncoding (exp_type column_type : Nat) (value : List Nat) :
    List Nat :=
  exp_type :: column_type :: value

/-- One `pg_constraint` row; columns not set by `InsertConstraint` remain
`none` (SQL null). -/
structure ConstraintRow where
  constraint_oid : Nat
  constraint_name : String
  constraint_type : String
  table_oid : Nat
  column_ids : String
  index_oid : Nat
  fk_sink_table_oid : Option Nat
  fk_sink_col_ids : Option String
  fk_update_action : Option String
  fk_delete_action : Option String
  check_exp_src : Option String
  check_exp_bin : Option (List Nat)
  deriving DecidableEq, Repr

/-- Failure modes of `InsertConstraint`: a violated `PELOTON_ASSERT`, or the
`CatalogException` thrown for an unexpected constraint kind. -/
inductive InsertConstraintError
  | assertViolation
  | catalogException (msg : String)
  deriving DecidableEq, Repr

/-- `ConstraintCatalog::InsertConstraint`
(`src/catalog/constraint_catalog.cpp:193-291`): builds the `pg_constraint`
tuple handed to `InsertTuple`, or fails.  `column_name` and `column_type` are
the storage schema's data for `column_ids[0]`, consulted only for check
constraints. -/
def InsertConstraint (column_name : String) (column_type : Nat)
    (c : Constraint) : Except InsertConstraintError ConstraintRow :=
  let base : ConstraintRow :=
    { constraint_oid := c.constraint_oid
      constraint_name := c.cname
      constraint_type := ConstraintTypeToString c.ctype
      table_oid := c.table_oid
      column_ids := idsToString c.column_ids
      index_oid := c.index_oid
      fk_sink_table_oid := none
      fk_sink_col_ids := none
      fk_update_action := none
      fk_delete_action := none
      check_exp_src := none
      check_exp_bin := none }
  match c.ctype with
  | .PRIMARY | .UNIQUE =>
    -- nothing to do more; need to set a valid index oid
    if c.index_oid = INVALID_OID then .error .assertViolation
    else .ok base
  | .FOREIGN =>
    -- need to set a valid index oid
    if c.index_oid = INVALID_OID then .error .assertViolation
    else
      .ok { base with
        fk_sink_table_oid := some c.fk_sink_table_oid
        fk_sink_col_ids := some (idsToString c.fk_sink_col_ids)
        fk_update_action := some (FKConstrActionTypeToString c.fk_update_action)
        fk_delete_action := some (FKConstrActionTypeToString c.fk_delete_action) }
  | .CHECK =>
    if c.column_ids.length ≠ 1 then .error .assertViolation
    else
      .ok { base with
        check_exp_src := some (column_name ++ " " ++ toString c.check_exp_type
          ++ " " ++ toString c.check_exp_value)
        check_exp_bin := some (checkExpBinEncoding c.check_exp_type
          column_type c.check_exp_value) }
  | _ =>
    .error (.catalogException ("Unexpected constraint type '"
      ++ ConstraintTypeToString c.ctype
      ++ "' appears in insertion into pg_constraint "))

/-- Process-wide catalog state relevant to C10: `catalog_map_` (the plain
in-memory registry of database oids with a `SystemCatalogs` bundle) and the
transactional `pg_database` rows. -/
structure CatalogProcessState where
  catalog_map : List Nat
  databaseRows : List Nat
  deriving DecidableEq, Repr

/-- `Catalog::GetSystemCatalogs` (`src/catalog/catalog.cpp:1264-1271`). -/
def GetSystemCatalogs (st : CatalogProcessState) (database_oid : Nat) :
    Except String Nat :=
  if database_oid ∈ st.catalog_map then .ok database_oid
  else .error ("Failed to find SystemCatalog for database_oid = "
    ++ toString database_oid)

/-- `Catalog::DropDatabaseWithOid` (`src/catalog/catalog.cpp:815-845`),
restricted to its effect on the registry and `pg_database` (the contained
`DropTable` calls touch neither): `DatabaseCatalog::DeleteDatabase` removes
the `pg_database` row (throwing when absent), then `catalog_map_.erase`
removes the registry entry — inside the function body, before the caller
ever commits. -/
def DropDatabaseWithOid (st : CatalogProcessState) (database_oid : Nat) :
    Except String CatalogProcessState :=
  if database_oid ∈ st.databaseRows then
    .ok { catalog_map := st.catalog_map.filter (fun o => o != database_oid)
          databaseRows := st.databaseRows.erase database_oid }
  else
    .error ("Database record: " ++ toString database_oid
      ++ " does not exist in pg_database")

/-- Modelled from the spec: transaction abort restores the transactional
catalog rows (ordinary versioned tuples under the ambient concurrency
protocol, spec §5) to their pre-transaction contents; `catalog_map_` is a
plain process-wide map guarded only by a mutex, not versioned, so abort does
not touch it. -/
def AbortTransaction (preTxnRows : List Nat) (st : CatalogProcessState) :
    CatalogProcessState :=
  { st with databaseRows := preTxnRows }

end Peloton

namespace Peloton

/-! ## Theorems -/

/-- C1: the checkpoint visibility predicate returns: false whenever the
creator transaction id is the invalid sentinel; for the bootstrap/initial
sentinel, true iff `begin_cid ≥ begin_commit ∧ begin_cid < end_commit`; for
any other creator, false whenever `begin_commit` is the uncommitted sentinel
`MAX_CID`, and otherwise true iff the same interval check holds. -/
theorem isVisible_cases (txn_id b e cid : Nat) :
    IsVisible txn_id b e cid =
      (if txn_id = INVALID_TXN_ID then false
       else if txn_id = INITIAL_TXN_ID then decide (cid ≥ b ∧ cid < e)
       else if b = MAX_CID then false
       else decide (cid ≥ b ∧ cid < e)) := by
  unfold IsVisible
  by_cases h1 : txn_id = INVALID_TXN_ID <;>
    by_cases h2 : txn_id = INITIAL_TXN_ID <;>
      by_cases h3 : b = MAX_CID <;>
        by_cases ha : cid ≥ b <;> by_cases hb : cid < e <;>
          simp_all [Nat.not_le, Nat.not_lt]

/-- C9: for tuple versions whose creator id is not the invalid sentinel and
whose `begin_commit` is not the uncommitted sentinel, the predicate computes
exactly the interval check, independently of whether the creator is the
bootstrap/initial sentinel or any other transaction, and hence agrees with the
simplified definition that drops the branch on the creator id. -/
theorem isVisible_refines_simple (txn_id b e cid : Nat)
    (h1 : txn_id ≠ INVALID_TXN_ID) (h2 : b ≠ MAX_CID) :
    IsVisible txn_id b e cid = (decide (cid ≥ b) && decide (cid < e)) ∧
    IsVisible txn_id b e cid = IsVisibleSimple txn_id b e cid ∧
    (∀ txn_id' : Nat, txn_id' ≠ INVALID_TXN_ID →
      IsVisible txn_id b e cid = IsVisible txn_id' b e cid) := by
  refine ⟨?_, ?_, ?_⟩
  · unfold IsVisible
    by_cases h3 : txn_id = INITIAL_TXN_ID <;>
      by_cases ha : cid ≥ b <;> by_cases hb : cid < e <;>
        simp_all [Nat.not_le, Nat.not_lt]
  · unfold IsVisible IsVisibleSimple
    by_cases h3 : txn_id = INITIAL_TXN_ID <;>
      by_cases ha : cid ≥ b <;> by_cases hb : cid < e <;>
        simp_all [Nat.not_le, Nat.not_lt]
  · intro t ht
    unfold IsVisible
    by_cases h3 : txn_id = INITIAL_TXN_ID <;> by_cases h4 : t = INITIAL_TXN_ID <;>
      by_cases ha : cid ≥ b <;> by_cases hb : cid < e <;>
        simp_all [Nat.not_le, Nat.not_lt]

/-- Witness for C9 at a concrete input: creator = 7 (neither sentinel),
interval `[5, 20)`, snapshot read id 10. -/
theorem isVisible_refines_simple_witness :
    (7 : Nat) ≠ INVALID_TXN_ID ∧ (5 : Nat) ≠ MAX_CID ∧
    IsVisible 7 5 20 10 = (decide ((10 : Nat) ≥ 5) && decide ((10 : Nat) < 20)) := by
  refine ⟨by decide, by norm_num [MAX_CID], ?_⟩
  exact (isVisible_refines_simple 7 5 20 10 (by decide) (by norm_num [MAX_CID])).1

/-- The loop body of `GetRecoveryCheckpointEpoch` is a `max` step on every
name other than the reserved working one (skipping a zero parse is absorbed
by `max`). -/
theorem grceStep_eq_max (w : String) (a : Nat) (n : String) :
    grceStep w a n = if n = w then a else max a (strtoul10 n) := by
  unfold grceStep
  by_cases hw : n = w
  · simp [hw]
  · by_cases h0 : strtoul10 n = 0
    · simp [hw, h0]
    · simp only [hw, if_false, h0]
      split <;> omega

/-- The directory loop of `GetRecoveryCheckpointEpoch` computes a running
maximum over the parsed non-working names. -/
theorem grce_foldl_eq (w : String) (names : List String) (acc : Nat) :
    names.foldl (grceStep w) acc
      = ((names.filter (fun n => n != w)).map strtoul10).foldl max acc := by
  induction names generalizing acc with
  | nil => rfl
  | cons n ns ih =>
    by_cases hw : n = w <;>
      simp [List.foldl_cons, List.filter_cons, grceStep_eq_max, hw, bne_iff_ne, ih]

/-- The initial accumulator bounds a `foldl max` from below. -/
theorem foldl_max_init_le (l : List Nat) (a : Nat) : a ≤ l.foldl max a := by
  induction l generalizing a with
  | nil => simp
  | cons x xs ih => exact le_trans (le_max_left a x) (ih (max a x))

/-- Every member of the list bounds a `foldl max` from below. -/
theorem foldl_max_mem_le (l : List Nat) (a x : Nat) (hx : x ∈ l) :
    x ≤ l.foldl max a := by
  induction l generalizing a with
  | nil => cases hx
  | cons y ys ih =>
    rcases List.mem_cons.mp hx with h | h
    · subst h
      exact le_trans (le_max_right a x) (foldl_max_init_le ys _)
    · exact ih _ h

/-- A `foldl max` is either the initial accumulator or a member. -/
theorem foldl_max_eq_init_or_mem (l : List Nat) (a : Nat) :
    l.foldl max a = a ∨ l.foldl max a ∈ l := by
  induction l generalizing a with
  | nil => exact Or.inl rfl
  | cons x xs ih =>
    rcases ih (max a x) with h | h
    · rcases max_choice a x with hm | hm
      · exact Or.inl (by rw [List.foldl_cons, h, hm])
      · exact Or.inr (by rw [List.foldl_cons, h, hm]; exact List.mem_cons_self x xs)
    · exact Or.inr (List.mem_cons_of_mem x h)

/-- C4: `GetRecoveryCheckpointEpoch` skips the reserved working-directory
name, parses every remaining name with `strtoul`, and returns the numerically
largest resulting epoch id (every parsed value is a lower bound, and a
non-sentinel result is attained by some remaining name); when the directory
listing cannot be obtained, or no generation directory exists, it returns the
invalid-epoch sentinel and `DoCheckpointRecovery` is a no-op. -/
theorem getRecoveryCheckpointEpoch_spec (w : String) (names : List String) :
    (GetRecoveryCheckpointEpoch w (some names)
      = ((names.filter (fun n => n != w)).map strtoul10).foldl max INVALID_EID) ∧
    (∀ n ∈ names, n ≠ w →
      strtoul10 n ≤ GetRecoveryCheckpointEpoch w (some names)) ∧
    (GetRecoveryCheckpointEpoch w (some names) ≠ INVALID_EID →
      ∃ n ∈ names, n ≠ w ∧
        strtoul10 n = GetRecoveryCheckpointEpoch w (some names)) ∧
    (GetRecoveryCheckpointEpoch w none = INVALID_EID) ∧
    (∀ env : RecoveryEnv, env.epoch_id = INVALID_EID →
      DoCheckpointRecovery env = (false, TxnOutcome.noTxn, 0)) := by
  have hmain :
      GetRecoveryCheckpointEpoch w (some names)
        = ((names.filter (fun n => n != w)).map strtoul10).foldl max INVALID_EID :=
    grce_foldl_eq w names INVALID_EID
  refine ⟨hmain, ?_, ?_, rfl, ?_⟩
  · intro n hn hnw
    rw [hmain]
    exact foldl_max_mem_le _ _ _
      (List.mem_map_of_mem _ (List.mem_filter_of_mem hn (by simpa [bne_iff_ne])))
  · intro hne
    rcases foldl_max_eq_init_or_mem
        ((names.filter (fun n => n != w)).map strtoul10) INVALID_EID with h | h
    · exact absurd (hmain.trans h) hne
    · rw [hmain]
      rcases List.mem_map.mp h with ⟨n, hnmem, hval⟩
      rcases List.mem_filter.mp hnmem with ⟨hn, hnw⟩
      exact ⟨n, hn, by simpa [bne_iff_ne] using hnw, hval⟩
  · intro env h
    simp [DoCheckpointRecovery, h]

/-- Witness for C4 at a concrete listing: the working name is skipped and the
largest parsed epoch (12) is selected; the name "3" parses below it. -/
theorem getRecoveryCheckpointEpoch_spec_witness :
    GetRecoveryCheckpointEpoch "working" (some ["working", "12", "3"]) = 12 ∧
    strtoul10 "3" ≤ GetRecoveryCheckpointEpoch "working" (some ["working", "12", "3"]) := by
  constructor
  · decide
  · exact (getRecoveryCheckpointEpoch_spec "working" ["working", "12", "3"]).2.1
      "3" (by simp) (by decide)

/-- The per-table loop of recovery reports success exactly when every file
opened; failures inside `RecoverTableData` never surface. -/
theorem loadTableLoop_ok (fs : List TableFileEnv) :
    (loadTableLoop fs).1 = fs.all (fun f => f.openOk) := by
  induction fs with
  | nil => rfl
  | cons f fs ih =>
    by_cases h : f.openOk <;>
      simp [loadTableLoop, LoadTableCheckpointFile, h, ih]

/-- Counterexample to C2: in `envC2` a tuple fails `DataTable::InsertTuple`
during replay, yet `DoCheckpointRecovery` commits the recovery transaction and
reports success, having applied only 1 of the 2 serialized tuples. -/
theorem doCheckpointRecovery_swallows_insert_failure :
    (∃ f ∈ envC2.userTables, ∃ g ∈ f.tileGroups, ∃ t ∈ g.tuples,
      t.tableInsertOk = false) ∧
    DoCheckpointRecovery envC2 = (true, TxnOutcome.committed, 1) ∧
    tupleCount envC2 = 2 := by
  decide

/-- C2 (amended): `DoCheckpointRecovery` aborts the recovery transaction and
reports `false` exactly when no valid epoch exists, the catalog file fails to
open or read, a database fails to deserialize, or some table checkpoint file
fails to open; tile-group/tuple deserialization and insertion failures inside
a table file do not affect the reported result. -/
theorem doCheckpointRecovery_reports (env : RecoveryEnv) :
    ((DoCheckpointRecovery env).1 = false ↔
      env.epoch_id = INVALID_EID ∨ env.catalogOpenOk = false ∨
      env.catalogReadOk = false ∨ false ∈ env.dbDeserOks ∨
      (∃ f ∈ env.userTables, f.openOk = false) ∨
      (∃ f ∈ env.catalogTables, f.openOk = false)) ∧
    ((DoCheckpointRecovery env).2.1 = TxnOutcome.committed ↔
      (DoCheckpointRecovery env).1 = true) ∧
    (env.epoch_id ≠ INVALID_EID → (DoCheckpointRecovery env).1 = false →
      (DoCheckpointRecovery env).2.1 = TxnOutcome.aborted) := by
  have hu := loadTableLoop_ok env.userTables
  have hc := loadTableLoop_ok env.catalogTables
  by_cases h0 : env.epoch_id = INVALID_EID <;>
    cases h1 : env.catalogOpenOk <;>
      cases h2 : env.catalogReadOk <;>
        cases h3 : env.dbDeserOks.all id <;>
          cases h4 : env.userTables.all (fun f => f.openOk) <;>
            cases h5 : env.catalogTables.all (fun f => f.openOk) <;>
              simp_all [DoCheckpointRecovery, LoadUserTableCheckpoint,
                LoadCatalogTableCheckpoint, RecoverCatalogObject,
                List.all_eq_true, List.all_eq_false, Bool.not_eq_true, id_eq]

/-- Witness for C2 (amended) at a concrete input: a run whose `catalog.bin`
fails to open reports `false` and aborts the transaction. -/
theorem doCheckpointRecovery_reports_witness :
    (DoCheckpointRecovery envCatalogOpenFail).1 = false ∧
    (DoCheckpointRecovery envCatalogOpenFail).2.1 = TxnOutcome.aborted :=
  ⟨(doCheckpointRecovery_reports envCatalogOpenFail).1.mpr (Or.inr (Or.inl rfl)),
   (doCheckpointRecovery_reports envCatalogOpenFail).2.2 (by decide)
     ((doCheckpointRecovery_reports envCatalogOpenFail).1.mpr
       (Or.inr (Or.inl rfl)))⟩

/-- Every event emitted while writing one table checkpoint file is a file
step. -/
theorem createTableCheckpointFile_fileSteps (t : TableWriteEnv) :
    ∀ e ∈ CreateTableCheckpointFile t, e.isFileStep = true := by
  unfold CreateTableCheckpointFile
  by_cases h : t.openOk <;> simp [h, CkptEvent.isFileStep]

/-- Every event emitted by `CreateUserTableCheckpoint` is a file step. -/
theorem createUserTableCheckpoint_fileSteps (env : CkptCycleEnv) :
    ∀ e ∈ CreateUserTableCheckpoint env, e.isFileStep = true := by
  intro e he
  unfold CreateUserTableCheckpoint at he
  rcases List.mem_append.mp he with he | he
  · rcases List.mem_flatten.mp he with ⟨l, hl, hel⟩
    rcases List.mem_map.mp hl with ⟨t, _, rfl⟩
    exact createTableCheckpointFile_fileSteps t e hel
  · by_cases hc : env.catalogOpenOk <;> simp [hc] at he <;>
      subst he <;> rfl

/-- Every event emitted by `CreateCatalogTableCheckpoint` is a file step. -/
theorem createCatalogTableCheckpoint_fileSteps (env : CkptCycleEnv) :
    ∀ e ∈ CreateCatalogTableCheckpoint env, e.isFileStep = true := by
  intro e he
  rcases List.mem_flatten.mp he with ⟨l, hl, hel⟩
  rcases List.mem_map.mp hl with ⟨t, _, rfl⟩
  exact createTableCheckpointFile_fileSteps t e hel

/-- Counterexample to C3: in cycle environment `envC3` a tile-group `fwrite`
fails (the data file is left partial), yet the cycle still promotes the
working directory to the epoch name. -/
theorem performCheckpointCycle_promotes_despite_failure :
    cycleHasFailure envC3 = true ∧
    CkptEvent.moveWorkingToEpochDir 42 ∈ performCheckpointCycle 42 envC3 := by
  decide

/-- C3 (amended): every checkpoint cycle promotes the working directory to the
epoch name exactly once, after all of its file open/write steps and the
snapshot transaction's end — unconditionally, whether or not any file open or
write step failed. -/
theorem performCheckpointCycle_promotes_unconditionally
    (epoch : Nat) (env : CkptCycleEnv) :
    ∃ pre : List CkptEvent,
      performCheckpointCycle epoch env =
        pre ++ [CkptEvent.endTxn, CkptEvent.moveWorkingToEpochDir epoch,
                CkptEvent.removeOldCheckpoints epoch] ∧
      (∀ e ∈ pre, e.isFileStep = true) ∧
      (performCheckpointCycle epoch env).count
        (CkptEvent.moveWorkingToEpochDir epoch) = 1 := by
  refine ⟨[CkptEvent.createWorkingDir] ++ CreateUserTableCheckpoint env
      ++ CreateCatalogTableCheckpoint env, ?_, ?_, ?_⟩
  · simp [performCheckpointCycle]
  · intro e he
    rcases List.mem_append.mp he with he | he
    · rcases List.mem_append.mp he with he | he
      · simp only [List.mem_singleton] at he
        subst he; rfl
      · exact createUserTableCheckpoint_fileSteps env e he
    · exact createCatalogTableCheckpoint_fileSteps env e he
  · have hpre : ∀ e ∈ [CkptEvent.createWorkingDir] ++ CreateUserTableCheckpoint env
        ++ CreateCatalogTableCheckpoint env, e.isFileStep = true := by
      intro e he
      rcases List.mem_append.mp he with he | he
      · rcases List.mem_append.mp he with he | he
        · simp only [List.mem_singleton] at he
          subst he; rfl
        · exact createUserTableCheckpoint_fileSteps env e he
      · exact createCatalogTableCheckpoint_fileSteps env e he
    have hnot : CkptEvent.moveWorkingToEpochDir epoch ∉
        [CkptEvent.createWorkingDir] ++ CreateUserTableCheckpoint env
          ++ CreateCatalogTableCheckpoint env := by
      intro hmem
      exact absurd (hpre _ hmem) (by simp [CkptEvent.isFileStep])
    have hsplit : performCheckpointCycle epoch env =
        ([CkptEvent.createWorkingDir] ++ CreateUserTableCheckpoint env
          ++ CreateCatalogTableCheckpoint env)
        ++ [CkptEvent.endTxn, CkptEvent.moveWorkingToEpochDir epoch,
            CkptEvent.removeOldCheckpoints epoch] := by
      simp [performCheckpointCycle]
    rw [hsplit, List.count_append, List.count_eq_zero.mpr hnot]
    simp

/-- C5: if `DropLayout` succeeds and the dropped layout was the table's
default at the time of the call, then afterwards the table's default layout
is the reserved row-store layout (id 0), the new default's layout row exists
in `pg_layout`, and `pg_table`'s default-layout-id column holds the new
default's id. -/
theorem dropLayout_default_reset (st : TableLayoutState) (l : Nat) (iok : Bool)
    (hdef : st.defaultLayoutOid = l)
    (hsucc : (DropLayout st l iok).1 = ResultType.SUCCESS) :
    (DropLayout st l iok).2.defaultLayoutOid = ROW_STORE_LAYOUT_OID ∧
    ROW_STORE_LAYOUT_OID ∈ (DropLayout st l iok).2.layoutRows ∧
    (DropLayout st l iok).2.pgTableDefaultOid = ROW_STORE_LAYOUT_OID := by
  unfold DropLayout deleteLayoutRow resetDefaultLayout at *
  by_cases hl : l ∈ st.layoutRows
  · by_cases hmem : ROW_STORE_LAYOUT_OID ∈ st.layoutRows.erase l
    · simp_all
    · cases iok <;> simp_all
  · simp_all

/-- Witness for C5: table with default layout 5 and `pg_layout` rows
`{0, 5}`; dropping layout 5 succeeds and resets the default to 0. -/
theorem dropLayout_default_reset_witness :
    (DropLayout ⟨5, [0, 5], 5⟩ 5 true).2.defaultLayoutOid = ROW_STORE_LAYOUT_OID ∧
    ROW_STORE_LAYOUT_OID ∈ (DropLayout ⟨5, [0, 5], 5⟩ 5 true).2.layoutRows ∧
    (DropLayout ⟨5, [0, 5], 5⟩ 5 true).2.pgTableDefaultOid = ROW_STORE_LAYOUT_OID :=
  dropLayout_default_reset ⟨5, [0, 5], 5⟩ 5 true rfl (by decide)

/-- Deleting, one by one, every index oid occurring with table `t` leaves no
`pg_index` row referencing `t`. -/
theorem dropIndex_foldl_clears (t : Nat) (todo : List (Nat × Nat)) :
    ∀ rows : List (Nat × Nat),
      (∀ r ∈ rows, r.2 = t → ∃ x ∈ todo, x.1 = r.1) →
      (todo.foldl (fun rs (p : Nat × Nat) => dropIndexRows rs p.1) rows).filter
        (fun r => r.2 == t) = [] := by
  induction todo with
  | nil =>
    intro rows h
    simp only [List.foldl_nil]
    refine List.filter_eq_nil_iff.mpr ?_
    intro r hr
    simp only [beq_iff_eq]
    intro hrt
    rcases h r hr hrt with ⟨x, hx, _⟩
    exact absurd hx (List.not_mem_nil x)
  | cons p todo ih =>
    intro rows h
    simp only [List.foldl_cons]
    refine ih (dropIndexRows rows p.1) ?_
    intro r hr hrt
    unfold dropIndexRows at hr
    have hmem := List.mem_filter.mp hr
    rcases h r hmem.1 hrt with ⟨x, hx, hx1⟩
    rcases List.mem_cons.mp hx with rfl | hx'
    · exact absurd hx1.symm (by simpa [bne_iff_ne] using hmem.2)
    · exact ⟨x, hx', hx1⟩

/-- C6: `DropTable` performs, in order, the drop of every trigger of the
table, then of every index of the table (removing their `pg_index` rows),
then deletes its `pg_attribute` rows, then its `pg_layout` rows, and only
then deletes the table's own `pg_table` row and registers the physical table
drop; afterwards zero `pg_index` rows and zero `pg_attribute` rows reference
the table id. -/
theorem dropTable_cascades (st : CatalogTablesState) (t : Nat) :
    (DropTable st t).2 =
      (st.triggerRows.filter (fun r => r.1 == t)).map
          (fun r => DropStep.dropTrigger t r.2)
        ++ (st.indexRows.filter (fun r => r.2 == t)).map
            (fun r => DropStep.dropIndex r.1)
        ++ [DropStep.deleteColumns t, DropStep.deleteLayouts t,
            DropStep.deleteTable t, DropStep.recordDropTable t] ∧
    (DropTable st t).1.indexRows.filter (fun r => r.2 == t) = [] ∧
    (DropTable st t).1.columnRows.filter (fun r => r.1 == t) = [] ∧
    (DropTable st t).1.tableRows = st.tableRows.erase t := by
  refine ⟨rfl, ?_, ?_, rfl⟩
  · refine dropIndex_foldl_clears t (st.indexRows.filter (fun r => r.2 == t))
      st.indexRows ?_
    intro r hr hrt
    exact ⟨r, List.mem_filter.mpr ⟨hr, by simp [hrt]⟩, rfl⟩
  · refine List.filter_eq_nil_iff.mpr ?_
    intro r hr
    have h2 := (List.mem_filter.mp hr).2
    simp only [bne_iff_ne, ne_eq, decide_eq_true_eq] at h2
    simp [h2]

/-- C10: a successful `DropDatabaseWithOid` removes the database's entry from
the in-process `catalog_map_` registry inside the call itself (before any
commit), so `GetSystemCatalogs` for that database id already raises its
not-found error in the same still-uncommitted transaction — and still does so
after the transaction aborts, since abort restores only transactional rows. -/
theorem dropDatabaseWithOid_unregisters (st st' : CatalogProcessState)
    (db : Nat) (h : DropDatabaseWithOid st db = Except.ok st') :
    (∃ msg, GetSystemCatalogs st' db = Except.error msg) ∧
    (∃ msg, GetSystemCatalogs (AbortTransaction st.databaseRows st') db =
      Except.error msg) := by
  unfold DropDatabaseWithOid at h
  by_cases hdb : db ∈ st.databaseRows
  · rw [if_pos hdb] at h
    cases h
    have hnot : db ∉ st.catalog_map.filter (fun o => o != db) := by
      intro hmem
      have h2 := (List.mem_filter.mp hmem).2
      simp at h2
    exact ⟨⟨"Failed to find SystemCatalog for database_oid = " ++ toString db,
            by simp [GetSystemCatalogs, hnot]⟩,
           ⟨"Failed to find SystemCatalog for database_oid = " ++ toString db,
            by simp [GetSystemCatalogs, AbortTransaction, hnot]⟩⟩
  · rw [if_neg hdb] at h
    cases h

/-- Witness for C10: dropping database 2 from a process knowing databases
`{1, 2}` leaves `GetSystemCatalogs 2` failing, also after abort. -/
theorem dropDatabaseWithOid_unregisters_witness :
    (∃ msg, GetSystemCatalogs ⟨[1], [1]⟩ 2 = Except.error msg) ∧
    (∃ msg, GetSystemCatalogs (AbortTransaction [1, 2] ⟨[1], [1]⟩) 2 =
      Except.error msg) :=
  dropDatabaseWithOid_unregisters ⟨[1, 2], [1, 2]⟩ ⟨[1], [1]⟩ 2 rfl

/-- Membership in the primary-key column scan: `i` is collected by the scan
started at counter `k` iff some column at offset `j` with `i = k + j` carries
the primary marker. -/
theorem mem_primaryKeyAttrsAux (cs : List SchemaColumn) :
    ∀ k i : Nat, (i ∈ primaryKeyAttrsAux k cs ↔
      ∃ j c, i = k + j ∧ cs.get? j = some c ∧ c.isPrimary = true) := by
  induction cs with
  | nil => intro k i; simp [primaryKeyAttrsAux]
  | cons c cs ih =>
    intro k i
    cases hp : c.isPrimary with
    | true =>
      simp only [primaryKeyAttrsAux, hp, eq_self_iff_true, if_true,
        List.mem_cons, ih]
      constructor
      · rintro (rfl | ⟨j, c', rfl, hg, hprim⟩)
        · exact ⟨0, c, by omega, rfl, hp⟩
        · exact ⟨j + 1, c', by omega, by simpa using hg, hprim⟩
      · rintro ⟨j, c', rfl, hg, hprim⟩
        cases j with
        | zero => left; omega
        | succ j' =>
          right
          exact ⟨j', c', by omega, by simpa using hg, hprim⟩
    | false =>
      simp only [primaryKeyAttrsAux, hp, Bool.false_eq_true, if_false, ih]
      constructor
      · rintro ⟨j, c', rfl, hg, hprim⟩
        exact ⟨j + 1, c', by omega, by simpa using hg, hprim⟩
      · rintro ⟨j, c', rfl, hg, hprim⟩
        cases j with
        | zero =>
          simp only [List.get?_cons_zero, Option.some.injEq] at hg
          rw [← hg] at hprim
          exact absurd hprim (by simp [hp])
        | succ j' =>
          exact ⟨j', c', by omega, by simpa using hg, hprim⟩

/-- Every ordinal collected by the scan is at least the starting counter. -/
theorem primaryKeyAttrsAux_lb (cs : List SchemaColumn) (k i : Nat)
    (hi : i ∈ primaryKeyAttrsAux k cs) : k ≤ i := by
  rcases (mem_primaryKeyAttrsAux cs k i).mp hi with ⟨j, _, rfl, _, _⟩
  omega

/-- The collected primary-key ordinals are strictly increasing (column
order). -/
theorem primaryKeyAttrsAux_sorted (cs : List SchemaColumn) :
    ∀ k : Nat, (primaryKeyAttrsAux k cs).Pairwise (· < ·) := by
  induction cs with
  | nil => intro k; simp [primaryKeyAttrsAux]
  | cons c cs ih =>
    intro k
    by_cases hp : c.isPrimary <;>
      simp only [primaryKeyAttrsAux, hp, if_true, if_false]
    · refine List.Pairwise.cons ?_ (ih (k + 1))
      intro i hi
      have := primaryKeyAttrsAux_lb cs (k + 1) i hi
      omega
    · exact ih (k + 1)

/-- C7: `CreatePrimaryIndex` scans the columns in column order collecting
exactly the ordinals marked primary (strictly increasing, one per marked
column); with no marked column it returns the no-index-created result and
leaves `pg_index` unchanged; otherwise it appends exactly one
`PRIMARY_KEY` row whose key attributes are those ordinals and whose key
schema is the projection of the owning table's schema onto them, in order. -/
theorem createPrimaryIndex_spec (tn : String) (schema : List SchemaColumn)
    (toid ioid : Nat) (pg_index : List IndexRow) :
    (∀ i, i ∈ primaryKeyAttrs schema ↔
      ∃ c, schema.get? i = some c ∧ c.isPrimary = true) ∧
    (primaryKeyAttrs schema).Pairwise (· < ·) ∧
    (primaryKeyAttrs schema = [] →
      CreatePrimaryIndex tn schema toid ioid pg_index =
        (ResultType.FAILURE, pg_index, none)) ∧
    (primaryKeyAttrs schema ≠ [] →
      CreatePrimaryIndex tn schema toid ioid pg_index =
        (ResultType.SUCCESS,
         pg_index ++
           [{ index_oid := ioid
              table_oid := toid
              index_name := tn ++ "_pkey"
              index_constraint := IndexConstraintType.PRIMARY_KEY
              unique_keys := true
              key_attrs := primaryKeyAttrs schema }],
         some ((primaryKeyAttrs schema).filterMap (fun i => schema.get? i)))) := by
  refine ⟨?_, primaryKeyAttrsAux_sorted schema 0, ?_, ?_⟩
  · intro i
    rw [primaryKeyAttrs, mem_primaryKeyAttrsAux schema 0 i]
    constructor
    · rintro ⟨j, c, rfl, hg, hprim⟩
      exact ⟨c, by simpa using hg, hprim⟩
    · rintro ⟨c, hg, hprim⟩
      exact ⟨i, c, by omega, hg, hprim⟩
  · intro h
    simp [CreatePrimaryIndex, h]
  · intro h
    simp [CreatePrimaryIndex, List.isEmpty_iff, h, copySchema]

/-- Witness for C7: a two-column schema whose first column carries the
primary marker yields one `PRIMARY_KEY` row on ordinal 0 with the projected
key schema. -/
theorem createPrimaryIndex_spec_witness :
    CreatePrimaryIndex "t" [⟨"id", 4, true⟩, ⟨"name", 9, false⟩] 2 30 [] =
      (ResultType.SUCCESS,
       [{ index_oid := 30
          table_oid := 2
          index_name := "t_pkey"
          index_constraint := IndexConstraintType.PRIMARY_KEY
          unique_keys := true
          key_attrs := [0] }],
       some [⟨"id", 4, true⟩]) :=
  ((createPrimaryIndex_spec "t" [⟨"id", 4, true⟩, ⟨"name", 9, false⟩]
      2 30 []).2.2.2 (by decide)).trans (by rfl)

/-- C8: `InsertConstraint` on a primary-key or unique constraint builds a row
exactly when the backing index id is valid (non-sentinel), failing the
assertion otherwise; on a foreign constraint it additionally serializes the
sink table id, sink column ordinals and update/delete actions into the row;
on a check constraint it serializes the self-describing
(expression-kind tag, value-type tag, literal bytes) encoding; and on any
other constraint kind it raises the internal `CatalogException` and hands no
row to `InsertTuple`. -/
theorem insertConstraint_spec (cn : String) (ct : Nat) (c : Constraint) :
    ((c.ctype = ConstraintType.PRIMARY ∨ c.ctype = ConstraintType.UNIQUE) →
      ((∃ row, InsertConstraint cn ct c = Except.ok row) ↔
        c.index_oid ≠ INVALID_OID)) ∧
    (c.ctype = ConstraintType.FOREIGN →
      ∀ row, InsertConstraint cn ct c = Except.ok row →
        row.fk_sink_table_oid = some c.fk_sink_table_oid ∧
        row.fk_sink_col_ids = some (idsToString c.fk_sink_col_ids) ∧
        row.fk_update_action =
          some (FKConstrActionTypeToString c.fk_update_action) ∧
        row.fk_delete_action =
          some (FKConstrActionTypeToString c.fk_delete_action)) ∧
    (c.ctype = ConstraintType.CHECK →
      ∀ row, InsertConstraint cn ct c = Except.ok row →
        row.check_exp_bin =
          some (checkExpBinEncoding c.check_exp_type ct c.check_exp_value)) ∧
    ((c.ctype = ConstraintType.INVALID ∨ c.ctype = ConstraintType.NOTNULL ∨
        c.ctype = ConstraintType.DEFAULT ∨
        c.ctype = ConstraintType.EXCLUSION) →
      InsertConstraint cn ct c =
        Except.error (InsertConstraintError.catalogException
          ("Unexpected constraint type '" ++ ConstraintTypeToString c.ctype
            ++ "' appears in insertion into pg_constraint "))) := by
  cases hct : c.ctype <;>
    by_cases hio : c.index_oid = INVALID_OID <;>
      by_cases hlen : c.column_ids.length = 1 <;>
        simp_all [InsertConstraint]

/-- Witness for C8: a primary-key constraint with backing index id 3 is
accepted (the index id being non-sentinel). -/
theorem insertConstraint_spec_witness :
    ∃ row, InsertConstraint "c" 4
      { constraint_oid := 1, cname := "pk", ctype := ConstraintType.PRIMARY,
        table_oid := 2, column_ids := [0], index_oid := 3,
        fk_sink_table_oid := 0, fk_sink_col_ids := [], fk_update_action := 0,
        fk_delete_action := 0, check_exp_type := 0, check_exp_value := [] } =
      Except.ok row :=
  ((insertConstraint_spec "c" 4
      { constraint_oid := 1, cname := "pk", ctype := ConstraintType.PRIMARY,
        table_oid := 2, column_ids := [0], index_oid := 3,
        fk_sink_table_oid := 0, fk_sink_col_ids := [], fk_update_action := 0,
        fk_delete_action := 0, check_exp_type := 0,
        check_exp_value := [] }).1 (Or.inl rfl)).mpr (by decide)

end Peloton
